import Mathlib

/-!
Verification development for the Netflix_Recommendation_Engine repository
(`app.py`, `search_movie.py`): a shallow embedding of the API client, the
watchlist persistence helpers, and the URL <-> state synchronisation logic,
with theorems settling the specification's claims about them.
-/

set_option linter.unusedVariables false

namespace Netflix

/-- Python values as they occur in this program: JSON payloads decoded by
`res.json()` / `json.loads`, movie records, and scalar values the app passes
around.  `obj` keeps key/value pairs in order; lookup takes the first match
(Python dicts have unique keys). -/
inductive PyVal where
  | null
  | bool (b : Bool)
  | int (n : Int)
  | str (s : String)
  | list (xs : List PyVal)
  | obj (kvs : List (String × PyVal))
deriving Repr

/-- Python truthiness (`if x:`) for the values above. -/
def pyTruthy : PyVal → Bool
  | .null => false
  | .bool b => b
  | .int n => n != 0
  | .str s => s != ""
  | .list xs => !xs.isEmpty
  | .obj kvs => !kvs.isEmpty

/-- Whether a value is a Python list (`isinstance(x, list)`). -/
def PyVal.isList : PyVal → Bool
  | .list _ => true
  | _ => false

/-- Whether a value is a Python dict (`isinstance(x, dict)`). -/
def PyVal.isObj : PyVal → Bool
  | .obj _ => true
  | _ => false

/-- `d.get(key, dflt)` on a Python dict value. -/
def dictGet (d : PyVal) (key : String) (dflt : PyVal) : PyVal :=
  match d with
  | .obj kvs =>
    match kvs.lookup key with
    | some v => v
    | none => dflt
  | _ => dflt

/-- `key in d` on a Python dict value. -/
def hasKey (d : PyVal) (key : String) : Bool :=
  match d with
  | .obj kvs => kvs.any (fun kv => kv.1 == key)
  | _ => false

/-- Outcome of one HTTP GET as seen through the `requests` library at the
`requests.get` call in `_safe_get`: the call can raise
`requests.RequestException` (connection error or timeout), or return a
response with a status code and a body.  `body = none` models a 200 response
whose payload `res.json()` cannot decode, which raises
`requests.exceptions.JSONDecodeError` — a subclass of `RequestException`
in the `requests` versions this code targets, hence caught by the same
`except` clause.  `body = some j` models a payload decoding to `j`. -/
inductive Transport where
  | raised
  | status (code : Nat) (body : Option PyVal)
deriving Repr

/-- `_safe_get` from `search_movie.py` (lines 12–21).  `API_KEY` is the value
of `os.getenv("TMDB_API_KEY") or ""` resolved at import time; with a blank
key the function short-circuits to `\x7b\x7d` before calling `requests.get`.
Returns the decoded JSON (`\x7b\x7d` on any failure) paired with whether a
network request was issued. -/
def safe_get (apiKey : String) (t : Transport) : PyVal × Bool :=
  if apiKey = "" then (.obj [], false)
  else
    match t with
    | .raised => (.obj [], true)
    | .status code body =>
      if code ≠ 200 then (.obj [], true)
      else
        match body with
        | none => (.obj [], true)
        | some j => (j, true)

/-- `search_movie` from `search_movie.py` (lines 24–38): empty query returns
`[]` without a request; otherwise the `results` field of the decoded dict
(defaulting to `[]`), or `[]` when the decoded value is not a dict. -/
def search_movie (apiKey : String) (query : String) (t : Transport) :
    PyVal × Bool :=
  if query = "" then (.list [], false)
  else
    let r := safe_get apiKey t
    match r.1 with
    | .obj kvs => (dictGet (.obj kvs) "results" (.list []), r.2)
    | _ => (.list [], r.2)

/-- `get_movie_details` from `search_movie.py` (lines 41–49): falsy id
(`None`, `0`, `""`) returns `\x7b\x7d` without a request; otherwise the decoded
dict itself, or `\x7b\x7d` when the decoded value is not a dict. -/
def get_movie_details (apiKey : String) (movie_id : PyVal) (t : Transport) :
    PyVal × Bool :=
  if !pyTruthy movie_id then (.obj [], false)
  else
    let r := safe_get apiKey t
    match r.1 with
    | .obj kvs => (.obj kvs, r.2)
    | _ => (.obj [], r.2)

/-- `get_recommendations` from `search_movie.py` (lines 52–60). -/
def get_recommendations (apiKey : String) (movie_id : PyVal) (t : Transport) :
    PyVal × Bool :=
  if !pyTruthy movie_id then (.list [], false)
  else
    let r := safe_get apiKey t
    match r.1 with
    | .obj kvs => (dictGet (.obj kvs) "results" (.list []), r.2)
    | _ => (.list [], r.2)

/-- `get_trending` from `search_movie.py` (lines 63–69). -/
def get_trending (apiKey : String) (t : Transport) : PyVal × Bool :=
  let r := safe_get apiKey t
  match r.1 with
  | .obj kvs => (dictGet (.obj kvs) "results" (.list []), r.2)
  | _ => (.list [], r.2)

/-- `get_popular` from `search_movie.py` (lines 72–78). -/
def get_popular (apiKey : String) (t : Transport) : PyVal × Bool :=
  let r := safe_get apiKey t
  match r.1 with
  | .obj kvs => (dictGet (.obj kvs) "results" (.list []), r.2)
  | _ => (.list [], r.2)

/-- `get_top_rated` from `search_movie.py` (lines 81–87). -/
def get_top_rated (apiKey : String) (t : Transport) : PyVal × Bool :=
  let r := safe_get apiKey t
  match r.1 with
  | .obj kvs => (dictGet (.obj kvs) "results" (.list []), r.2)
  | _ => (.list [], r.2)

/-- The text stored in the watchlist file, abstracted by what `json.loads`
does with it: `invalid` is text on which `json.loads` raises
`json.JSONDecodeError`; `valid j` is text decoding to the value `j`. -/
inductive FileText where
  | invalid
  | valid (j : PyVal)
deriving Repr

/-- State of the durable watchlist store `my_list.json`: the file may be
missing, present but unreadable (`read_text` raises an `OSError` such as
`PermissionError`), or present with readable text. -/
inductive DiskFile where
  | missing
  | unreadable
  | content (t : FileText)
deriving Repr

/-- Python exceptions that the embedded file operations can surface. -/
inductive PyErr where
  | osError
deriving Repr

/-- `load_my_list_from_disk` from `app.py` (lines 26–32).  Only
`json.JSONDecodeError` is caught; an `OSError` raised by `read_text` on an
existing but unreadable file propagates to the caller. -/
def load_my_list_from_disk : DiskFile → Except PyErr PyVal
  | .missing => .ok (.list [])
  | .unreadable => .error .osError
  | .content .invalid => .ok (.list [])
  | .content (.valid j) => .ok j

/-- `save_my_list_to_disk` from `app.py` (lines 35–40): rewrites the file with
the JSON dump of the list.  `writeOk = false` models `write_text` raising an
`OSError`, which the function swallows, leaving the old disk state. -/
def save_my_list_to_disk (writeOk : Bool) (mylist : List Int)
    (disk : DiskFile) : DiskFile :=
  if writeOk then .content (.valid (.list (mylist.map PyVal.int)))
  else disk

/-- One user session's watchlist-relevant state: the in-memory
`st.session_state.my_list`, the durable store, and a counter of attempted
disk writes (each `save_my_list_to_disk` call increments it). -/
structure SessionState where
  my_list : List Int
  disk : DiskFile
  writes : Nat
deriving Repr

/-- `add_to_my_list` from `app.py` (lines 44–49): `None` id returns at once;
an id already present is a no-op; otherwise append and persist before
returning. -/
def add_to_my_list (writeOk : Bool) (movie_id : Option Int)
    (s : SessionState) : SessionState :=
  match movie_id with
  | none => s
  | some mid =>
    if mid ∈ s.my_list then s
    else
      let l := s.my_list ++ [mid]
      { my_list := l
        disk := save_my_list_to_disk writeOk l s.disk
        writes := s.writes + 1 }

/-- `remove_from_my_list` from `app.py` (lines 52–56): `None` id returns at
once; otherwise filter out every occurrence and persist before returning. -/
def remove_from_my_list (writeOk : Bool) (movie_id : Option Int)
    (s : SessionState) : SessionState :=
  match movie_id with
  | none => s
  | some mid =>
    let l := s.my_list.filter (fun x => x ≠ mid)
    { my_list := l
      disk := save_my_list_to_disk writeOk l s.disk
      writes := s.writes + 1 }

/-- The in-memory watchlist and the durable store agree: the store holds
exactly the JSON dump of the current id list. -/
def consistent (s : SessionState) : Prop :=
  s.disk = .content (.valid (.list (s.my_list.map PyVal.int)))

/-- Python's `str()` applied to the values `repr()` and `str()` agree on;
containers are rendered in Python's bracketed notation (escaping of quotes
inside nested strings is not modelled — no claim touches it). -/
def pyRepr : PyVal → String
  | .null => "None"
  | .bool true => "True"
  | .bool false => "False"
  | .int n => toString n
  | .str s => "'" ++ s ++ "'"
  | .list xs => "[" ++ String.intercalate ", " (xs.attach.map fun x => pyRepr x.1) ++ "]"
  | .obj kvs =>
    "\x7b" ++
      String.intercalate ", "
        (kvs.attach.map fun kv => "'" ++ kv.1.1 ++ "': " ++ pyRepr kv.1.2) ++
    "\x7d"
termination_by v => sizeOf v
decreasing_by
  · have h := List.sizeOf_lt_of_mem x.2
    simp only [PyVal.list.sizeOf_spec]
    omega
  · have h := List.sizeOf_lt_of_mem kv.2
    rcases kv with ⟨⟨k, v⟩, hkv⟩
    simp only [Prod.mk.sizeOf_spec] at h
    simp only [PyVal.obj.sizeOf_spec]
    omega

/-- Python's `str()`: like `pyRepr` but bare for strings (as in an f-string
interpolation). -/
def pyStr : PyVal → String
  | .str s => s
  | v => pyRepr v

/-- `get_poster_url` from `app.py` (lines 79–85). -/
def get_poster_url (path : PyVal) : String :=
  if pyTruthy path then "https://image.tmdb.org/t/p/w500" ++ pyStr path
  else
    "https://www.themoviedb.org/assets/2/v4/logos/stacked-blue-2b2b2b9ef3c2a132.png"

/-- `get_backdrop_url` from `app.py` (lines 88–98): truthy `backdrop_path`
first, else truthy `poster_path`, else the placeholder logo. -/
def get_backdrop_url (movie : PyVal) : String :=
  let backdrop := dictGet movie "backdrop_path" .null
  let poster := dictGet movie "poster_path" .null
  if pyTruthy backdrop then
    "https://image.tmdb.org/t/p/original" ++ pyStr backdrop
  else if pyTruthy poster then
    "https://image.tmdb.org/t/p/original" ++ pyStr poster
  else
    "https://www.themoviedb.org/assets/2/v4/logos/stacked-blue-2b2b2b9ef3c2a132.png"

/-- Characters Python's `int(str)` strips from both ends of its argument
(ASCII whitespace; exotic Unicode space classes are not modelled). -/
def isPySpace (c : Char) : Bool :=
  c = ' ' || c = '\t' || c = '\n' || c = '\r' || c = '\x0b' || c = '\x0c'

/-- Strip `isPySpace` characters from both ends of a character list. -/
def stripPy (cs : List Char) : List Char :=
  ((cs.dropWhile isPySpace).reverse.dropWhile isPySpace).reverse

/-- Value of a decimal digit character. -/
def digitVal (c : Char) : Option Nat :=
  if '0' ≤ c ∧ c ≤ '9' then some (c.toNat - '0'.toNat) else none

/-- Left fold of decimal digits onto an accumulator; `none` as soon as a
non-digit appears. -/
def decValue (acc : Nat) : List Char → Option Nat
  | [] => some acc
  | c :: rest =>
    match digitVal c with
    | some d => decValue (acc * 10 + d) rest
    | none => none

/-- A nonempty all-digit run read as a natural number. -/
def digitsToNat : List Char → Option Nat
  | [] => none
  | cs => decValue 0 cs

/-- Structural restatement of core's `Nat.toDigits 10`: most significant
digit first.  Used to reason about the decimal strings `str(movie_id)`
produces. -/
def natDigits (n : Nat) : List Char :=
  if h : n / 10 = 0 then [Nat.digitChar (n % 10)]
  else natDigits (n / 10) ++ [Nat.digitChar (n % 10)]
termination_by n
decreasing_by omega

/-- Sign-then-digits part of Python's `int(str)`. -/
def pyIntOfChars : List Char → Option Int
  | [] => none
  | c :: rest =>
    if c = '-' then (digitsToNat rest).map fun n => -(n : Int)
    else if c = '+' then (digitsToNat rest).map fun n => (n : Int)
    else (digitsToNat (c :: rest)).map fun n => (n : Int)

/-- Python's `int(s)` on a string, as the URL-sync code uses it: strip
whitespace, optional single sign, then a nonempty digit run; `none` models
`ValueError`.  (Digit-grouping underscores and non-ASCII digits are not
modelled; no claim involves them.) -/
def pyIntOfString (s : String) : Option Int :=
  pyIntOfChars (stripPy s.toList)

/-- A query-parameter value as `st.query_params` may deliver it: a single
string or a list of strings (the code handles both, per the
"URL-as-state-source duck typing" note). -/
inductive QueryParamVal where
  | str (s : String)
  | list (xs : List String)
deriving Repr, DecidableEq

/-- Navigation-relevant session state: `st.session_state.selected_movie_id`,
`st.session_state.page` (`"home"` or `"my_list"`), and the search box text. -/
structure ViewState where
  selected_movie_id : Option Int
  page : String
  search_query : String
deriving Repr, DecidableEq

/-- The spec's navigation modes. -/
inductive Mode where
  | Browse
  | Search
  | Detail
  | MyList
deriving Repr, DecidableEq

/-- Derived navigation mode, following `app.py` control flow: the detail
modal renders and stops the page whenever `selected_movie_id` is not `None`
(line 662); else the My List page when `page == "my_list"` (line 735); else
Search when the search box is non-blank (line 647); else Browse. -/
def mode (s : ViewState) : Mode :=
  match s.selected_movie_id with
  | some _ => .Detail
  | none =>
    if s.page = "my_list" then .MyList
    else if s.search_query.trim ≠ "" then .Search
    else .Browse

/-- The raw string the URL-sync block extracts from the `movie` parameter:
a plural value collapses to its first element, an absent parameter or an
empty plural value to `none`. -/
def movieParamRaw : Option QueryParamVal → Option String
  | none => none
  | some (.str v) => some v
  | some (.list []) => none
  | some (.list (v :: _)) => some v

/-- The base (non-Detail) mode a view state would be in with no selection:
what `mode` yields once the selection is cleared. -/
def baseMode (s : ViewState) : Mode :=
  if s.page = "my_list" then .MyList
  else if s.search_query.trim ≠ "" then .Search
  else .Browse

/-- The URL → state synchronisation block of `app.py` (lines 233–252):
read `?movie=` (collapsing a list value to its first element), and set
`selected_movie_id` from `int(...)` when the raw value is truthy, clearing
it when the parameter is absent, empty, or unparsable. -/
def reconcileFromLocation (movieParam : Option QueryParamVal)
    (s : ViewState) : ViewState :=
  let movie_from_url : Option String :=
    match movieParam with
    | none => none
    | some (.str v) => some v
    | some (.list []) => none
    | some (.list (v :: _)) => some v
  match movie_from_url with
  | some v =>
    if v ≠ "" then
      match pyIntOfString v with
      | some n => { s with selected_movie_id := some n }
      | none => { s with selected_movie_id := none }
    else { s with selected_movie_id := none }
  | none => { s with selected_movie_id := none }

/-- The "More Info" button handler of `app.py` (lines 697–705, likewise
787–795): set `selected_movie_id` and write `st.query_params` to the decimal
string of the id.  Returns the new view state and the written `movie`
parameter. -/
def selectMovie (mid : Int) (s : ViewState) : ViewState × Option QueryParamVal :=
  ({ s with selected_movie_id := some mid }, some (.str (toString mid)))

/-!  Lemmas about decimal rendering and parsing, leading to the round trip
`pyIntOfString (toString mid) = some mid` needed for the URL claims. -/

theorem toDigitsCore_eq_natDigits :
    ∀ (fuel n : Nat) (acc : List Char), n < fuel →
      Nat.toDigitsCore 10 fuel n acc = natDigits n ++ acc := by
  intro fuel
  induction fuel with
  | zero => intro n acc h; exact absurd h (Nat.not_lt_zero n)
  | succ f ih =>
    intro n acc h
    by_cases h0 : n / 10 = 0
    · rw [natDigits]
      simp [Nat.toDigitsCore, h0]
    · rw [natDigits]
      simp only [Nat.toDigitsCore, h0, if_false, dif_neg h0]
      rw [ih (n / 10) _ (by omega)]
      simp

theorem toDigits_eq_natDigits (n : Nat) : Nat.toDigits 10 n = natDigits n := by
  have h := toDigitsCore_eq_natDigits (n + 1) n [] (Nat.lt_succ_self n)
  simpa [Nat.toDigits] using h

theorem digitVal_digitChar : ∀ d, d < 10 → digitVal (Nat.digitChar d) = some d := by
  decide

theorem digitChar_bounds :
    ∀ d, d < 10 → '0' ≤ Nat.digitChar d ∧ Nat.digitChar d ≤ '9' := by
  decide

theorem decValue_append (xs ys : List Char) : ∀ acc,
    decValue acc (xs ++ ys) =
      match decValue acc xs with
      | some a => decValue a ys
      | none => none := by
  induction xs with
  | nil => intro acc; simp [decValue]
  | cons c rest ih =>
    intro acc
    simp only [List.cons_append, decValue]
    cases hd : digitVal c with
    | none => simp
    | some d => simp [ih]

theorem natDigits_value :
    ∀ n : Nat, ∀ acc : Nat,
      decValue acc (natDigits n) =
        some (acc * 10 ^ (natDigits n).length + n) := by
  intro n
  induction n using Nat.strong_induction_on with
  | _ n ih =>
    intro acc
    by_cases h0 : n / 10 = 0
    · rw [natDigits, dif_pos h0]
      have hd : digitVal (Nat.digitChar (n % 10)) = some (n % 10) :=
        digitVal_digitChar _ (by omega)
      simp [decValue, hd]
      omega
    · rw [natDigits, dif_neg h0]
      rw [decValue_append]
      rw [ih (n / 10) (by omega) acc]
      have hd : digitVal (Nat.digitChar (n % 10)) = some (n % 10) :=
        digitVal_digitChar _ (by omega)
      simp only [decValue, hd]
      have hlen : (natDigits (n / 10) ++ [Nat.digitChar (n % 10)]).length
          = (natDigits (n / 10)).length + 1 := by simp
      rw [hlen, pow_succ]
      have hmod : n % 10 + 10 * (n / 10) = n := Nat.mod_add_div n 10
      congr 1
      ring_nf
      omega

theorem natDigits_ne_nil (n : Nat) : natDigits n ≠ [] := by
  rw [natDigits]
  split <;> simp

theorem natDigits_all_digits :
    ∀ n : Nat, ∀ c ∈ natDigits n, '0' ≤ c ∧ c ≤ '9' := by
  intro n
  induction n using Nat.strong_induction_on with
  | _ n ih =>
    intro c hc
    rw [natDigits] at hc
    by_cases h0 : n / 10 = 0
    · rw [dif_pos h0] at hc
      simp at hc
      subst hc
      exact digitChar_bounds _ (by omega)
    · rw [dif_neg h0] at hc
      rcases List.mem_append.mp hc with h | h
      · exact ih (n / 10) (by omega) c h
      · simp at h
        subst h
        exact digitChar_bounds _ (by omega)

theorem digit_not_special :
    ∀ c : Char, '0' ≤ c → c ≤ '9' →
      isPySpace c = false ∧ c ≠ '-' ∧ c ≠ '+' := by
  intro c h1 h2
  refine ⟨?_, ?_, ?_⟩
  · unfold isPySpace
    simp only [Bool.or_eq_false_iff, decide_eq_false_iff_not]
    refine ⟨⟨⟨⟨⟨?_, ?_⟩, ?_⟩, ?_⟩, ?_⟩, ?_⟩ <;>
      (rintro rfl; revert h1; decide)
  · rintro rfl; revert h1; decide
  · rintro rfl; revert h1; decide

theorem dropWhile_eq_self_of_all {p : Char → Bool} :
    ∀ cs : List Char, (∀ c ∈ cs, p c = false) → cs.dropWhile p = cs := by
  intro cs h
  cases cs with
  | nil => rfl
  | cons c rest => simp [List.dropWhile_cons, h c (List.mem_cons_self c rest)]

theorem stripPy_of_all (cs : List Char)
    (h : ∀ c ∈ cs, isPySpace c = false) : stripPy cs = cs := by
  unfold stripPy
  rw [dropWhile_eq_self_of_all cs h]
  rw [dropWhile_eq_self_of_all cs.reverse
    (fun c hc => h c (List.mem_reverse.mp hc))]
  exact List.reverse_reverse cs

theorem digitsToNat_natDigits (n : Nat) : digitsToNat (natDigits n) = some n := by
  cases hn : natDigits n with
  | nil => exact absurd hn (natDigits_ne_nil n)
  | cons c rest =>
    have heq : digitsToNat (c :: rest) = decValue 0 (c :: rest) := rfl
    rw [heq, ← hn]
    have hv := natDigits_value n 0
    simpa using hv

theorem toString_ofNat_toList (n : Nat) :
    (toString (Int.ofNat n)).toList = natDigits n := by
  show Nat.toDigits 10 n = natDigits n
  exact toDigits_eq_natDigits n

theorem toString_negSucc_toList (m : Nat) :
    (toString (Int.negSucc m)).toList = '-' :: natDigits (m + 1) := by
  show ("-" ++ toString (m + 1)).data = '-' :: natDigits (m + 1)
  rw [String.data_append]
  have h : (toString (m + 1)).data = natDigits (m + 1) := toDigits_eq_natDigits (m + 1)
  rw [h]
  rfl

theorem pyIntOfString_toString (mid : Int) :
    pyIntOfString (toString mid) = some mid := by
  cases mid with
  | ofNat n =>
    unfold pyIntOfString
    rw [toString_ofNat_toList n, stripPy_of_all _ (fun c hc =>
      (digit_not_special c (natDigits_all_digits n c hc).1
        (natDigits_all_digits n c hc).2).1)]
    cases hn : natDigits n with
    | nil => exact absurd hn (natDigits_ne_nil n)
    | cons c rest =>
      have hc : c ∈ natDigits n := by rw [hn]; exact List.mem_cons_self c rest
      have hb := natDigits_all_digits n c hc
      have hs := digit_not_special c hb.1 hb.2
      simp only [pyIntOfChars, if_neg hs.2.1, if_neg hs.2.2]
      rw [← hn, digitsToNat_natDigits n]
      rfl
  | negSucc m =>
    unfold pyIntOfString
    have hall : ∀ c ∈ '-' :: natDigits (m + 1), isPySpace c = false := by
      intro c hc
      rcases List.mem_cons.mp hc with h | h
      · subst h; decide
      · exact (digit_not_special c (natDigits_all_digits (m + 1) c h).1
          (natDigits_all_digits (m + 1) c h).2).1
    rw [toString_negSucc_toList m, stripPy_of_all _ hall]
    simp only [pyIntOfChars, if_pos rfl]
    rw [digitsToNat_natDigits (m + 1)]
    simp [Int.negSucc_eq]

theorem toString_int_ne_empty (mid : Int) : toString mid ≠ "" := by
  intro h
  have hlist : (toString mid).toList = [] := by rw [h]; rfl
  cases mid with
  | ofNat n =>
    rw [toString_ofNat_toList n] at hlist
    exact natDigits_ne_nil n hlist
  | negSucc m =>
    rw [toString_negSucc_toList m] at hlist
    exact List.noConfusion hlist

/-!  Claim theorems. -/

/-- C1: for every movie id, performing the select operation (which sets the
session's selected movie id and writes the `movie` query parameter as the
decimal string of the id) and then running the URL-to-state reconciliation
on the resulting location yields a selected movie id equal to the original
id and the detail overlay open (mode `Detail`). -/
theorem c1_select_reconcile_roundtrip (mid : Int) (s : ViewState) :
    (reconcileFromLocation (selectMovie mid s).2 (selectMovie mid s).1).selected_movie_id
        = some mid ∧
    mode (reconcileFromLocation (selectMovie mid s).2 (selectMovie mid s).1)
        = .Detail := by
  have hne : toString mid ≠ "" := toString_int_ne_empty mid
  have hp := pyIntOfString_toString mid
  simp [reconcileFromLocation, selectMovie, hne, hp, mode]

/-- C2 counterexample: with the `movie` parameter present as `"0"` — present
but not parsing as a *positive* integer — the reconciliation sets the
selected movie id to 0 instead of clearing the selection as the claim
states. -/
theorem c2_counterexample :
    (reconcileFromLocation (some (.str "0"))
        { selected_movie_id := none, page := "home", search_query := "" }).selected_movie_id
      = some 0 ∧
    some (0 : Int) ≠ (none : Option Int) := by
  constructor
  · decide
  · decide

/-- C2 (amended): the reconciliation sets the selected movie id exactly when
the `movie` parameter is present, collapses to a nonempty raw string, and
that string parses as an integer — positivity is not required; otherwise the
selection is cleared.  The base state (session page, search box) is never
touched, so the previously set base mode is unchanged; whenever a selection
is set, the derived mode is `Detail`. -/
theorem c2_reconcile_characterisation (mp : Option QueryParamVal) (s : ViewState) :
    (reconcileFromLocation mp s).selected_movie_id =
        ((movieParamRaw mp).bind fun v => if v = "" then none else pyIntOfString v) ∧
    (reconcileFromLocation mp s).page = s.page ∧
    (reconcileFromLocation mp s).search_query = s.search_query ∧
    baseMode (reconcileFromLocation mp s) = baseMode s ∧
    (∀ n : Int, (reconcileFromLocation mp s).selected_movie_id = some n →
        mode (reconcileFromLocation mp s) = .Detail) := by
  rcases mp with _ | v
  · simp [reconcileFromLocation, movieParamRaw, baseMode, mode]
  · rcases v with v | xs
    · by_cases hv : v = ""
      · subst hv
        simp [reconcileFromLocation, movieParamRaw, baseMode, mode]
      · cases hp : pyIntOfString v with
        | none =>
          simp [reconcileFromLocation, movieParamRaw, baseMode, mode, hv, hp]
        | some n =>
          simp [reconcileFromLocation, movieParamRaw, baseMode, mode, hv, hp]
    · rcases xs with _ | ⟨v, rest⟩
      · simp [reconcileFromLocation, movieParamRaw, baseMode, mode]
      · by_cases hv : v = ""
        · subst hv
          simp [reconcileFromLocation, movieParamRaw, baseMode, mode]
        · cases hp : pyIntOfString v with
          | none =>
            simp [reconcileFromLocation, movieParamRaw, baseMode, mode, hv, hp]
          | some n =>
            simp [reconcileFromLocation, movieParamRaw, baseMode, mode, hv, hp]

/-- C2 witness: a concrete run through the hypothesis-bearing conjunct of the
characterisation — parameter `"7"` yields selection 7 and mode `Detail`. -/
theorem c2_witness :
    (reconcileFromLocation (some (.str "7"))
        { selected_movie_id := none, page := "home", search_query := "" }).selected_movie_id
      = some 7 ∧
    mode (reconcileFromLocation (some (.str "7"))
        { selected_movie_id := none, page := "home", search_query := "" }) = .Detail :=
  ⟨by decide,
   (c2_reconcile_characterisation (some (.str "7"))
      { selected_movie_id := none, page := "home", search_query := "" }).2.2.2.2
     7 (by decide)⟩

/-- C3: when the API credential resolves to the empty string at startup,
every client operation returns its empty result and issues no network
request (the Boolean component records whether `requests.get` ran). -/
theorem c3_missing_credential_short_circuits (q : String) (mid : PyVal)
    (t : Transport) :
    search_movie "" q t = (.list [], false) ∧
    get_movie_details "" mid t = (.obj [], false) ∧
    get_recommendations "" mid t = (.list [], false) ∧
    get_trending "" t = (.list [], false) ∧
    get_popular "" t = (.list [], false) ∧
    get_top_rated "" t = (.list [], false) := by
  refine ⟨?_, ?_, ?_, ?_, ?_, ?_⟩
  · by_cases hq : q = "" <;> simp [search_movie, safe_get, dictGet, hq]
  · by_cases hm : pyTruthy mid <;> simp [get_movie_details, safe_get, dictGet, hm]
  · by_cases hm : pyTruthy mid <;> simp [get_recommendations, safe_get, dictGet, hm]
  · simp [get_trending, safe_get, dictGet]
  · simp [get_popular, safe_get, dictGet]
  · simp [get_top_rated, safe_get, dictGet]

/-- C4 counterexample: a 200 response whose JSON object carries a non-list
`results` field (a malformed payload) is returned verbatim by
`search_movie`, so the result is not a sequence of movie records. -/
theorem c4_counterexample :
    (search_movie "k" "batman"
        (.status 200 (some (.obj [("results", .int 5)])))).1 = .int 5 ∧
    PyVal.isList (search_movie "k" "batman"
        (.status 200 (some (.obj [("results", .int 5)])))).1 = false := by
  exact ⟨rfl, rfl⟩

/-- C4 (amended): `search_movie` never raises (it is total); for every query,
a transport exception, a non-2xx status, and an undecodable JSON body
degrade to the empty list, and so does a decodable body that is not a JSON
object; a 200 JSON-object body has its `results` field returned verbatim
(empty list when the field is absent or when the credential or the query is
blank) — the field is not validated to be a list of movie records. -/
theorem c4_degradation (apiKey query : String) :
    (search_movie apiKey query .raised).1 = .list [] ∧
    (∀ code body, code ≠ 200 →
        (search_movie apiKey query (.status code body)).1 = .list []) ∧
    (search_movie apiKey query (.status 200 none)).1 = .list [] ∧
    (∀ j : PyVal, j.isObj = false →
        (search_movie apiKey query (.status 200 (some j))).1 = .list []) ∧
    (∀ kvs, (search_movie apiKey query (.status 200 (some (.obj kvs)))).1 =
        if apiKey = "" ∨ query = "" then .list []
        else dictGet (.obj kvs) "results" (.list [])) := by
  refine ⟨?_, ?_, ?_, ?_, ?_⟩
  · by_cases hq : query = "" <;> by_cases hk : apiKey = "" <;>
      simp [search_movie, safe_get, dictGet, hq, hk]
  · intro code body hcode
    by_cases hq : query = "" <;> by_cases hk : apiKey = "" <;>
      simp [search_movie, safe_get, dictGet, hq, hk, hcode]
  · by_cases hq : query = "" <;> by_cases hk : apiKey = "" <;>
      simp [search_movie, safe_get, dictGet, hq, hk]
  · intro j hj
    cases j <;>
      first
      | (by_cases hq : query = "" <;> by_cases hk : apiKey = "" <;>
          simp [search_movie, safe_get, dictGet, hq, hk] <;> done)
      | simp_all [PyVal.isObj]
  · intro kvs
    by_cases hq : query = "" <;> by_cases hk : apiKey = "" <;>
      simp [search_movie, safe_get, dictGet, hq, hk]

/-- C4 witness: the hypothesis-bearing conjuncts of the degradation theorem
at concrete inputs — a 404 and a non-object body both yield the empty
list. -/
theorem c4_witness :
    (search_movie "k" "q" (.status 404 none)).1 = .list [] ∧
    (search_movie "k" "q" (.status 200 (some (.list [.int 1])))).1 = .list [] :=
  ⟨(c4_degradation "k" "q").2.1 404 none (by decide),
   (c4_degradation "k" "q").2.2.2.1 (.list [.int 1]) rfl⟩

/-- C5 counterexample: on an existing but unreadable file (a permission
error), the load operation propagates the `OSError` — only
`json.JSONDecodeError` is caught — rather than returning the empty
sequence. -/
theorem c5_counterexample :
    load_my_list_from_disk .unreadable = .error .osError := rfl

/-- C5 (amended): a missing file and undecodable content both yield the
empty list without raising; every disk state other than the unreadable one
returns normally; only the unreadable-file case raises. -/
theorem c5_load_degradation :
    load_my_list_from_disk .missing = .ok (.list []) ∧
    load_my_list_from_disk (.content .invalid) = .ok (.list []) ∧
    (∀ d : DiskFile, d ≠ .unreadable →
        ∃ j, load_my_list_from_disk d = .ok j) := by
  refine ⟨rfl, rfl, ?_⟩
  intro d hd
  cases d with
  | missing => exact ⟨.list [], rfl⟩
  | unreadable => exact absurd rfl hd
  | content t =>
    cases t with
    | invalid => exact ⟨.list [], rfl⟩
    | valid j => exact ⟨j, rfl⟩

/-- C5 witness: the hypothesis-bearing conjunct applied to the missing-file
state. -/
theorem c5_witness : ∃ j, load_my_list_from_disk .missing = .ok j :=
  c5_load_degradation.2.2 .missing (fun h => DiskFile.noConfusion h)

/-- C6: for every watchlist satisfying the no-duplicates invariant, `add`
appends only when absent (a second `add` of the same id leaves exactly one
occurrence) and preserves the invariant and insertion order; `remove`
removes exactly the occurrences of the given id — the result is the filter
of the original list, so every other id is retained, in its original
relative order (sublist of the original) — and preserves the invariant. -/
theorem c6_watchlist_invariant (w : Bool) (x : Int) (s : SessionState)
    (hnd : s.my_list.Nodup) :
    (add_to_my_list w (some x) s).my_list.Nodup ∧
    (x ∈ s.my_list → (add_to_my_list w (some x) s).my_list = s.my_list) ∧
    (x ∉ s.my_list → (add_to_my_list w (some x) s).my_list = s.my_list ++ [x]) ∧
    (add_to_my_list w (some x) (add_to_my_list w (some x) s)).my_list.count x = 1 ∧
    (remove_from_my_list w (some x) s).my_list.count x = 0 ∧
    (remove_from_my_list w (some x) s).my_list
        = s.my_list.filter (fun y => y ≠ x) ∧
    (∀ y, y ∈ s.my_list → y ≠ x →
        y ∈ (remove_from_my_list w (some x) s).my_list) ∧
    (remove_from_my_list w (some x) s).my_list.Sublist s.my_list ∧
    (remove_from_my_list w (some x) s).my_list.Nodup := by
  refine ⟨?_, ?_, ?_, ?_, ?_, ?_, ?_, ?_, ?_⟩
  · by_cases hx : x ∈ s.my_list <;>
      simp [add_to_my_list, hx, List.nodup_append, hnd]
  · intro hx; simp [add_to_my_list, hx]
  · intro hx; simp [add_to_my_list, hx]
  · by_cases hx : x ∈ s.my_list
    · simp [add_to_my_list, hx, List.count_eq_one_of_mem hnd hx]
    · simp [add_to_my_list, hx]
      exact List.count_eq_zero_of_not_mem hx
  · simp [remove_from_my_list, List.count_eq_zero]
  · simp only [remove_from_my_list]
  · intro y hy hyx
    simp only [remove_from_my_list]
    simp [List.mem_filter, hy, hyx]
  · simp only [remove_from_my_list]
    exact List.filter_sublist s.my_list
  · simp only [remove_from_my_list]
    exact hnd.filter _

/-- C6 witness: the invariant theorem run on the concrete watchlist `[1, 2]`
with id 2. -/
theorem c6_witness :
    ([1, 2] : List Int).Nodup ∧
    ((add_to_my_list true (some 2) ⟨[1, 2], .missing, 0⟩).my_list.Nodup ∧
     (2 ∈ ([1, 2] : List Int) →
        (add_to_my_list true (some 2) ⟨[1, 2], .missing, 0⟩).my_list = [1, 2]) ∧
     (2 ∉ ([1, 2] : List Int) →
        (add_to_my_list true (some 2) ⟨[1, 2], .missing, 0⟩).my_list = [1, 2] ++ [2]) ∧
     (add_to_my_list true (some 2)
        (add_to_my_list true (some 2) ⟨[1, 2], .missing, 0⟩)).my_list.count 2 = 1 ∧
     (remove_from_my_list true (some 2) ⟨[1, 2], .missing, 0⟩).my_list.count 2 = 0 ∧
     (remove_from_my_list true (some 2) ⟨[1, 2], .missing, 0⟩).my_list
        = ([1, 2] : List Int).filter (fun y => y ≠ 2) ∧
     (∀ y, y ∈ ([1, 2] : List Int) → y ≠ 2 →
        y ∈ (remove_from_my_list true (some 2) ⟨[1, 2], .missing, 0⟩).my_list) ∧
     (remove_from_my_list true (some 2) ⟨[1, 2], .missing, 0⟩).my_list.Sublist [1, 2] ∧
     (remove_from_my_list true (some 2) ⟨[1, 2], .missing, 0⟩).my_list.Nodup) :=
  ⟨by decide, c6_watchlist_invariant true 2 ⟨[1, 2], .missing, 0⟩ (by decide)⟩

/-- C7: with writes succeeding, every `add`/`remove` call returns with the
durable store already holding the dump of the updated id list — persistence
is synchronous, so a consistent state stays consistent (including the no-op
branches, which write nothing and change nothing). -/
theorem c7_sync_persistence (mid : Option Int) (s : SessionState)
    (h : consistent s) :
    consistent (add_to_my_list true mid s) ∧
    consistent (remove_from_my_list true mid s) := by
  cases mid with
  | none => exact ⟨h, h⟩
  | some x =>
    constructor
    · by_cases hx : x ∈ s.my_list
      · simpa [add_to_my_list, hx, consistent] using h
      · simp [add_to_my_list, hx, consistent, save_my_list_to_disk]
    · simp [remove_from_my_list, consistent, save_my_list_to_disk]

/-- C7 witness: a concrete consistent session stays consistent through an
`add` and a `remove`. -/
theorem c7_witness :
    consistent ⟨[7], .content (.valid (.list [.int 7])), 1⟩ ∧
    (consistent (add_to_my_list true (some 3)
        ⟨[7], .content (.valid (.list [.int 7])), 1⟩) ∧
     consistent (remove_from_my_list true (some 3)
        ⟨[7], .content (.valid (.list [.int 7])), 1⟩)) :=
  ⟨rfl, c7_sync_persistence (some 3) ⟨[7], .content (.valid (.list [.int 7])), 1⟩ rfl⟩

/-- C8: for an absent (`None`) or zero movie id, `get_movie_details` returns
the empty record without a network request, whatever the credential and the
transport would have done. -/
theorem c8_details_guard (apiKey : String) (t : Transport) :
    get_movie_details apiKey .null t = (.obj [], false) ∧
    get_movie_details apiKey (.int 0) t = (.obj [], false) := by
  constructor <;> rfl

/-- C9: calling `add` or `remove` with a `None` movie id is a complete
no-op: the state — in-memory list, durable store, and the count of
attempted writes — is returned unchanged. -/
theorem c9_none_noop (w : Bool) (s : SessionState) :
    add_to_my_list w none s = s ∧ remove_from_my_list w none s = s :=
  ⟨rfl, rfl⟩

/-- C10 counterexample: a record whose `backdrop_path` key is present but
empty falls through to the poster, contradicting the claim that a present
backdrop path is always used. -/
theorem c10_counterexample :
    hasKey (.obj [("backdrop_path", .str ""), ("poster_path", .str "/p.jpg")])
        "backdrop_path" = true ∧
    get_backdrop_url (.obj [("backdrop_path", .str ""), ("poster_path", .str "/p.jpg")])
        = "https://image.tmdb.org/t/p/original/p.jpg" ∧
    "https://image.tmdb.org/t/p/original/p.jpg"
        ≠ "https://image.tmdb.org/t/p/original" := by
  refine ⟨rfl, by decide, by decide⟩

/-- C10 (amended): the fallback order is driven by truthiness, not bare
presence — a truthy (present and non-empty) backdrop path wins, else a
truthy poster path, and only when both are falsy does the placeholder
appear. -/
theorem c10_backdrop_fallback (movie : PyVal) :
    (pyTruthy (dictGet movie "backdrop_path" .null) = true →
      get_backdrop_url movie =
        "https://image.tmdb.org/t/p/original"
          ++ pyStr (dictGet movie "backdrop_path" .null)) ∧
    (pyTruthy (dictGet movie "backdrop_path" .null) = false →
      pyTruthy (dictGet movie "poster_path" .null) = true →
      get_backdrop_url movie =
        "https://image.tmdb.org/t/p/original"
          ++ pyStr (dictGet movie "poster_path" .null)) ∧
    (pyTruthy (dictGet movie "backdrop_path" .null) = false →
      pyTruthy (dictGet movie "poster_path" .null) = false →
      get_backdrop_url movie =
        "https://www.themoviedb.org/assets/2/v4/logos/stacked-blue-2b2b2b9ef3c2a132.png") := by
  refine ⟨fun h1 => ?_, fun h1 h2 => ?_, fun h1 h2 => ?_⟩ <;>
    simp [get_backdrop_url, h1]
  · simp [*]
  · simp [*]

/-- C10 witness: the three branches of the fallback theorem at concrete
records. -/
theorem c10_witness :
    get_backdrop_url (.obj [("backdrop_path", .str "/b")]) =
      "https://image.tmdb.org/t/p/original"
        ++ pyStr (dictGet (.obj [("backdrop_path", .str "/b")]) "backdrop_path" .null) ∧
    get_backdrop_url (.obj [("poster_path", .str "/p")]) =
      "https://image.tmdb.org/t/p/original"
        ++ pyStr (dictGet (.obj [("poster_path", .str "/p")]) "poster_path" .null) ∧
    get_backdrop_url (.obj []) =
      "https://www.themoviedb.org/assets/2/v4/logos/stacked-blue-2b2b2b9ef3c2a132.png" :=
  ⟨(c10_backdrop_fallback (.obj [("backdrop_path", .str "/b")])).1 rfl,
   (c10_backdrop_fallback (.obj [("poster_path", .str "/p")])).2.1 rfl rfl,
   (c10_backdrop_fallback (.obj [])).2.2 rfl rfl⟩

end Netflix
